import Mathlib

/-!
Verification development for the paper-dungeon generator
(src/paperdungeon.py).  The Python classes `Point`, `RectangularRoom`,
`Room` and `Dungeon` are embedded shallowly: coordinates are `Int`,
the string-keyed spatial index `Dungeon.data` (keys `f"{x}:{y}"`, an
injective encoding of the pair) becomes an association list keyed by
`Int × Int`, and the process-wide random source becomes explicit
parameters (the chosen wall, room index, corridor length) or an
explicit stream `Nat → Nat` threaded through the orchestration.
Python `int(a / b)` truncates toward zero and is modelled by
`Int.tdiv`; `math.floor(a / b)` is `Int.fdiv`.
-/

set_option maxRecDepth 100000

namespace YART

/-- Embedding of the Python class `Point`: an integer 2D vector. -/
structure Point where
  x : Int
  y : Int
deriving DecidableEq

/-- Python `Point.__add__`. -/
def Point.add (a b : Point) : Point := ⟨a.x + b.x, a.y + b.y⟩

instance : Add Point := ⟨Point.add⟩

/-- Python `Point.UP()` = Point(0, -1). -/
def Point.UP : Point := ⟨0, -1⟩

/-- Python `Point.DOWN()` = Point(0, 1). -/
def Point.DOWN : Point := ⟨0, 1⟩

/-- Python `Point.LEFT()` = Point(-1, 0). -/
def Point.LEFT : Point := ⟨-1, 0⟩

/-- Python `Point.RIGHT()` = Point(1, 0). -/
def Point.RIGHT : Point := ⟨1, 0⟩

/-- Embedding of the Python class `RectangularRoom`: the four stored bounds. -/
structure RectangularRoom where
  x1 : Int
  y1 : Int
  x2 : Int
  y2 : Int
deriving DecidableEq

/-- Python `RectangularRoom.__init__(x, y, width, height)`:
    x2 = x + width, y2 = y + height. -/
def RectangularRoom.make (x y width height : Int) : RectangularRoom :=
  ⟨x, y, x + width, y + height⟩

/-- Python `RectangularRoom.position` property. -/
def RectangularRoom.position (r : RectangularRoom) : Point := ⟨r.x1, r.y1⟩

/-- Python `RectangularRoom.end` property (named endPt since end is a keyword). -/
def RectangularRoom.endPt (r : RectangularRoom) : Point := ⟨r.x2, r.y2⟩

/-- Python `RectangularRoom.size` property. -/
def RectangularRoom.size (r : RectangularRoom) : Point := ⟨r.x2 - r.x1, r.y2 - r.y1⟩

/-- Python `RectangularRoom.center` property:
    `int((x1 + x2) / 2)` truncates toward zero, i.e. `Int.tdiv`. -/
def RectangularRoom.center (r : RectangularRoom) : Int × Int :=
  (Int.tdiv (r.x1 + r.x2) 2, Int.tdiv (r.y1 + r.y2) 2)

/-- Python `RectangularRoom.intersects` (edges inclusive). -/
def RectangularRoom.intersects (a other : RectangularRoom) : Bool :=
  decide (a.x1 ≤ other.x2) && decide (a.x2 ≥ other.x1) &&
  decide (a.y1 ≤ other.y2) && decide (a.y2 ≥ other.y1)

/-- Python `RectangularRoom.encloses` (edges inclusive). -/
def RectangularRoom.encloses (a other : RectangularRoom) : Bool :=
  decide (a.x1 ≤ other.x1) && decide (a.x2 ≥ other.x2) &&
  decide (a.y1 ≤ other.y1) && decide (a.y2 ≥ other.y2)

/-- Python `RectangularRoom.has_point` (edges inclusive on both ends). -/
def RectangularRoom.has_point (r : RectangularRoom) (x y : Int) : Bool :=
  decide (r.x1 ≤ x) && decide (x ≤ r.x2) && decide (r.y1 ≤ y) && decide (y ≤ r.y2)

/-- Python `RectangularRoom.grow(growth)`. -/
def RectangularRoom.grow (r : RectangularRoom) (growth : Int) : RectangularRoom :=
  RectangularRoom.make (r.x1 - growth) (r.y1 - growth)
    (r.size.x + growth * 2) (r.size.y + growth * 2)

/-- The four cardinal wall labels of the Python dict
    `ready_walls = {"n": True, "e": True, "s": True, "w": True}`. -/
inductive Wall where
  | n
  | e
  | s
  | w
deriving DecidableEq

/-- Keys of the fresh `ready_walls` dict, in Python insertion order. -/
def initWalls : List Wall := [Wall.n, Wall.e, Wall.s, Wall.w]

/-- Embedding of the Python class `Room`: a rectangle plus the remaining
    wall keys (dict keys in insertion order) and the is-room flag. -/
structure Room where
  room : RectangularRoom
  ready_walls : List Wall
  is_room : Bool
deriving DecidableEq

/-- An occupant stored in the spatial index `Dungeon.data`: either the Room
    object appended by `add_room` (identified by its index in the append-only
    `rooms` list, which determines the object) or the corridor-cell dict
    `{"isCorridor": True, "room": RectangularRoom(x, y, 1, 1)}`. -/
inductive Occupant where
  | roomOcc (idx : Nat)
  | corridorOcc (x y : Int)
deriving DecidableEq

/-- Spatial-index keys: the Python string key `f"{x}:{y}"` encodes exactly
    the pair (x, y). -/
abbrev Key := Int × Int

/-- Lookup in the association-list model of the Python dict. -/
def mapGet : List (Key × Occupant) → Key → Option Occupant
  | [], _ => none
  | p :: rest, k => if p.1 = k then some p.2 else mapGet rest k

/-- Update in the association-list model of the Python dict:
    any existing binding of the key is dropped and the new one stored. -/
def mapSet (m : List (Key × Occupant)) (k : Key) (v : Occupant) : List (Key × Occupant) :=
  (m.filter (fun p => decide (p.1 ≠ k))) ++ [(k, v)]

/-- Embedding of the Python class `Dungeon`: the spatial index `data`,
    the append-only room and corridor lists, the padding and the borders
    rectangle (the unused `doorPos` dict is omitted). -/
structure Dungeon where
  data : List (Key × Occupant)
  rooms : List Room
  corridors : List Point
  padding : Int
  borders : RectangularRoom
deriving DecidableEq

/-- Python `Dungeon.__init__(map_width, map_height, padding)`. -/
def Dungeon.make (map_width map_height padding : Int) : Dungeon :=
  { data := []
    rooms := []
    corridors := []
    padding := padding
    borders := RectangularRoom.make padding padding
      (map_width - padding * 2) (map_height - padding * 2) }

/-- Python `Dungeon.get_data`. -/
def Dungeon.get_data (d : Dungeon) (x y : Int) : Option Occupant :=
  mapGet d.data (x, y)

/-- Python `Dungeon._set_data`: stores only when the borders contain the
    point (inclusive edges), otherwise does nothing. -/
def Dungeon.set_data (d : Dungeon) (x y : Int) (v : Occupant) : Dungeon :=
  if d.borders.has_point x y then { d with data := mapSet d.data (x, y) v } else d

/-- Python `Dungeon.in_limits`. -/
def Dungeon.in_limits (d : Dungeon) (room : RectangularRoom) : Bool :=
  d.borders.encloses room

/-- The list a half-open integer interval enumerates, in order
    (Python `range(a, b)` over the int coordinates). -/
def intRange (a b : Int) : List Int :=
  (List.range (b - a).toNat).map (fun i : Nat => a + (i : Int))

/-- The cells visited by the nested loops of `Dungeon.add_room`
    (`for x in range(position.x, end.x): for y in range(position.y, end.y)`). -/
def footprint (r : RectangularRoom) : List Key :=
  (intRange r.x1 r.x2).flatMap (fun x => (intRange r.y1 r.y2).map (fun y => (x, y)))

/-- Python `Dungeon.add_room`: rejected (pure no-op) unless the borders
    enclose the room; otherwise a fresh `Room` node is appended and every
    footprint cell is written to the spatial index via `_set_data`. -/
def Dungeon.add_room (d : Dungeon) (new_room : RectangularRoom) : Dungeon :=
  if d.in_limits new_room then
    (footprint new_room).foldl
      (fun acc c => acc.set_data c.1 c.2 (Occupant.roomOcc d.rooms.length))
      { d with rooms :=
          d.rooms ++ [{ room := new_room, ready_walls := initWalls, is_room := true }] }
  else d

/-- The wall `add_random_corridor` draws: `random.shuffle` of the remaining
    keys followed by taking the head is a uniform pick; the random draw is
    modelled by the index `choice % walls.length` into the key list. -/
def wallChosen (room : Room) (choice : Nat) : Wall :=
  room.ready_walls.getD (choice % room.ready_walls.length) Wall.n

/-- The room after `room.ready_walls.pop(k)` removed the chosen wall key. -/
def roomAfterPop (room : Room) (choice : Nat) : Room :=
  { room with ready_walls := room.ready_walls.eraseIdx (choice % room.ready_walls.length) }

/-- Corridor start position and direction derived from the chosen wall
    (`math.floor(position + size / 2)` on the relevant axis is `Int.fdiv`). -/
def corridorStart (starting_room : RectangularRoom) (k : Wall) : Point × Point :=
  match k with
  | Wall.n =>
      (⟨starting_room.position.x + Int.fdiv starting_room.size.x 2,
        starting_room.position.y⟩, Point.UP)
  | Wall.s =>
      (⟨starting_room.position.x + Int.fdiv starting_room.size.x 2,
        starting_room.position.y + starting_room.size.y - 1⟩, Point.DOWN)
  | Wall.e =>
      (⟨starting_room.position.x + starting_room.size.x - 1,
        starting_room.position.y + Int.fdiv starting_room.size.y 2⟩, Point.RIGHT)
  | Wall.w =>
      (⟨starting_room.position.x,
        starting_room.position.y + Int.fdiv starting_room.size.y 2⟩, Point.LEFT)

/-- The walk loop of `add_random_corridor` (`for _ in range(length)`):
    at each step the position advances; leaving the grown borders aborts the
    whole call (`none`); a hit in the spatial index stops with the touched
    flag set and the colliding cell NOT queued; otherwise the cell is queued.
    Returns the queued cells, the final value of `position`, and the
    `touched_another_room` flag. -/
def corridorWalk (d : Dungeon) (direction : Point) :
    Nat → Point → List Point → Option (List Point × Point × Bool)
  | 0, position, todo => some (todo, position, false)
  | Nat.succ steps, position, todo =>
    if d.in_limits ((RectangularRoom.make (position + direction).x
        (position + direction).y 1 1).grow d.padding) then
      match d.get_data (position + direction).x (position + direction).y with
      | some _ => some (todo, position + direction, true)
      | none => corridorWalk d direction steps (position + direction)
          (todo ++ [position + direction])
    else none

/-- The commit loop body of `add_random_corridor`: `_set_data` for the cell
    (storing the corridor-cell dict) and an unconditional append to
    `corridors`. -/
def commitCell (acc : Dungeon) (p : Point) : Dungeon :=
  let acc1 := acc.set_data p.x p.y (Occupant.corridorOcc p.x p.y)
  { acc1 with corridors := acc1.corridors ++ [p] }

/-- Python `Dungeon.add_random_corridor(room, length, connecting)`.
    The aliased mutable `room` argument is modelled by its index `ri` in
    `rooms`; the `random.shuffle` draw by `choice`.  Returns the updated
    dungeon and the Python return value. -/
def Dungeon.add_random_corridor (d : Dungeon) (ri choice : Nat) (length : Nat)
    (connecting : Bool) : Dungeon × Option Point :=
  match d.rooms[ri]? with
  | none => (d, none)
  | some room =>
    if room.ready_walls.length = 0 then (d, none)
    else
      match corridorWalk { d with rooms := d.rooms.set ri (roomAfterPop room choice) }
          (corridorStart room.room (wallChosen room choice)).2 length
          (corridorStart room.room (wallChosen room choice)).1 [] with
      | none => ({ d with rooms := d.rooms.set ri (roomAfterPop room choice) }, none)
      | some (todo, position, touched) =>
        if touched || !connecting then
          if !touched then
            (todo.foldl commitCell
              { d with rooms := d.rooms.set ri (roomAfterPop room choice) },
              some position)
          else
            (todo.foldl commitCell
              { d with rooms := d.rooms.set ri (roomAfterPop room choice) },
              none)
        else ({ d with rooms := d.rooms.set ri (roomAfterPop room choice) }, some position)

/-- One dungeon-graph mutation, for stating lifetime invariants over every
    sequence of `add_room` / `add_random_corridor` calls. -/
inductive Step where
  | addRoom (r : RectangularRoom)
  | addCorridor (ri choice length : Nat) (connecting : Bool)

/-- Apply one mutation to the dungeon state. -/
def applyStep (d : Dungeon) : Step → Dungeon
  | Step.addRoom r => d.add_room r
  | Step.addCorridor ri choice length connecting =>
      (d.add_random_corridor ri choice length connecting).1

/-- Run a sequence of mutations from a state. -/
def runSteps (d : Dungeon) (steps : List Step) : Dungeon :=
  steps.foldl applyStep d

/-- The set of cells the rasterization loops of `generate_paper_dungeon`
    write as floor: every recorded corridor cell and every room's inner
    slice (half-open on both axes). -/
def Dungeon.isFloorCell (d : Dungeon) (x y : Int) : Bool :=
  d.corridors.any (fun p => decide (p.x = x) && decide (p.y = y)) ||
  d.rooms.any (fun rm =>
    decide (rm.room.x1 ≤ x) && decide (x < rm.room.x2) &&
    decide (rm.room.y1 ≤ y) && decide (y < rm.room.y2))

/-- Scenario A of the spec: a 160 by 100 map with padding 4 and the 8 by 8
    seed room at bounds (76, 46)-(84, 54). -/
def sceneA : Dungeon := (Dungeon.make 160 100 4).add_room (RectangularRoom.make 76 46 8 8)

/-- The Room node `add_room` creates for the scenario-A seed room. -/
def sceneARoom : Room :=
  { room := RectangularRoom.make 76 46 8 8, ready_walls := initWalls, is_room := true }

/-- A dungeon holding one 3 by 3 room at (5, 5). -/
def dOverlapA : Dungeon := (Dungeon.make 30 30 4).add_room (RectangularRoom.make 5 5 3 3)

/-- The same dungeon after a second, fully overlapping `add_room` call. -/
def dOverlapB : Dungeon := dOverlapA.add_room (RectangularRoom.make 5 5 3 3)

/-- The Room node of the single room of `dOverlapA`. -/
def dOverlapRoom : Room :=
  { room := RectangularRoom.make 5 5 3 3, ready_walls := initWalls, is_room := true }

/-- Scenario B of the spec: a room whose north wall points at the border
    edge with fewer than 20 steps of space (map 100 by 30, padding 4,
    room at (46, 11)-(54, 19), so only 3 cells fit above it). -/
def sceneB : Dungeon := (Dungeon.make 100 30 4).add_room (RectangularRoom.make 46 11 8 8)

/-- The Room node of the scenario-B room. -/
def sceneBRoom : Room :=
  { room := RectangularRoom.make 46 11 8 8, ready_walls := initWalls, is_room := true }

/-- Scenario C of the spec: two 4 by 4 rooms three cells apart facing each
    other on the x axis. -/
def sceneC : Dungeon :=
  ((Dungeon.make 40 40 4).add_room (RectangularRoom.make 10 10 4 4)).add_room
    (RectangularRoom.make 17 10 4 4)

/-- The Room node of the first (western) scenario-C room. -/
def sceneCRoomA : Room :=
  { room := RectangularRoom.make 10 10 4 4, ready_walls := initWalls, is_room := true }

/-! The orchestration `generate_paper_dungeon` draws all randomness from the
process-wide `random` module.  The generator state is modelled as a stream
`Nat → Nat` with a cursor: each primitive draw consumes one stream value.
`random.randrange(n)` becomes the value modulo `n`, `random.randint(a, b)`
(inclusive) the value modulo `b - a + 1` offset by `a`, and the weighted
`random.choices` a cumulative-weight walk on the value modulo the total
weight.  Every draw is a pure function of the stream and cursor, exactly as
the Mersenne generator output is a pure function of its seeded state. -/

/-- A pseudo-random source: an externally seeded value stream and a cursor. -/
structure Rng where
  stream : Nat → Nat
  pos : Nat

/-- Consume one value from the source. -/
def Rng.next (g : Rng) : Nat × Rng := (g.stream g.pos, { g with pos := g.pos + 1 })

/-- Model of `random.randrange(n)`. -/
def randrangeN (g : Rng) (n : Nat) : Nat × Rng :=
  let nv := g.next
  (nv.1 % n, nv.2)

/-- Model of `random.randrange(a, b)`. -/
def randrangeAB (g : Rng) (a b : Nat) : Nat × Rng :=
  let nv := g.next
  (a + nv.1 % (b - a), nv.2)

/-- Model of `random.randint(a, b)` on int coordinates (both ends inclusive). -/
def randintII (g : Rng) (a b : Int) : Int × Rng :=
  let nv := g.next
  (a + Int.ofNat (nv.1 % (b - a + 1).toNat), nv.2)

/-- A spawned entity: the template it was cloned from (entity templates are
    abstracted to identifiers; the player is identifier 0) and its position. -/
structure PlacedEntity where
  eid : Nat
  x : Int
  y : Int
deriving DecidableEq

/-- Python dict update `entity_weighted_chances[entity] = weighted_chance`:
    an existing key keeps its place and gets the new value, a new key is
    appended (insertion order). -/
def weightSet (m : List (Nat × Nat)) (k v : Nat) : List (Nat × Nat) :=
  if m.any (fun p => decide (p.1 = k)) then
    m.map (fun p => if p.1 = k then (k, v) else p)
  else m ++ [(k, v)]

/-- The accumulation loop of `get_entities_at_random`: walk the
    floor-threshold table in insertion order, stopping (`break`) at the
    first key above the current floor. -/
def collectChances (floor : Nat) : List (Nat × List (Nat × Nat)) → List (Nat × Nat) →
    List (Nat × Nat)
  | [], acc => acc
  | (key, values) :: rest, acc =>
    if floor < key then acc
    else collectChances floor rest (values.foldl (fun a v => weightSet a v.1 v.2) acc)

/-- One weighted choice: walk the cumulative weights. -/
def weightedPick : List (Nat × Nat) → Nat → Nat
  | [], _ => 0
  | (e, w) :: rest, r => if r < w then e else weightedPick rest (r - w)

/-- Python `get_entities_at_random`: build the weighted table for the floor,
    then draw `number` entities (`random.choices` with `k = number`). -/
def get_entities_at_random (weighted : List (Nat × List (Nat × Nat)))
    (number floor : Nat) (g : Rng) : List Nat × Rng :=
  let chances := collectChances floor weighted []
  let total := chances.foldl (fun a p => a + p.2) 0
  (List.range number).foldl
    (fun st _ =>
      let nv := st.2.next
      (st.1 ++ [weightedPick chances (nv.1 % total)], nv.2))
    ([], g)

/-- Python `place_entities`: draw monster and item counts, draw the
    entities, then spawn each at a random interior position unless some
    existing entity already occupies that cell. -/
def place_entities (room : RectangularRoom) (entities : List PlacedEntity)
    (max_monsters : Nat) (monster_chances : List (Nat × List (Nat × Nat)))
    (max_items : Nat) (item_chances : List (Nat × List (Nat × Nat)))
    (floor_number : Nat) (g : Rng) : List PlacedEntity × Rng :=
  let r1 := randrangeN g (max_monsters + 1)
  let r2 := randrangeN r1.2 (max_items + 1)
  let ms := get_entities_at_random monster_chances r1.1 floor_number r2.2
  let its := get_entities_at_random item_chances r2.1 floor_number ms.2
  (ms.1 ++ its.1).foldl
    (fun st e =>
      let xr := randintII st.2 (room.x1 + 1) (room.x2 - 1)
      let yr := randintII xr.2 (room.y1 + 1) (room.y2 - 1)
      if st.1.any (fun q => decide (q.x = xr.1) && decide (q.y = yr.1))
      then (st.1, yr.2)
      else (st.1 ++ [⟨e, xr.1, yr.1⟩], yr.2))
    (entities, its.2)

/-- The stairs-room selection loop (`while True: ... if not exit_room ==
    start_room: break`).  Python compares the Room objects by identity, and
    distinct list entries are distinct objects, so the test is an index
    comparison.  The unbounded `while True` is given explicit fuel so the
    model is a total function; exhausting the fuel yields no index. -/
def pickExit (n si : Nat) : Nat → Rng → Option Nat × Rng
  | 0, g => (none, g)
  | Nat.succ fuel, g =>
    if (randrangeN g n).1 ≠ si then (some (randrangeN g n).1, (randrangeN g n).2)
    else pickExit n si fuel (randrangeN g n).2

/-- The tile grid after rasterization: wall (0) is the pre-initialized
    default, every corridor cell and room interior becomes floor (1), and
    the downstairs cell (written last) becomes 2. -/
def renderTiles (map_width map_height : Nat) (d : Dungeon)
    (stairs : Option (Int × Int)) : List (List Nat) :=
  (List.range map_width).map (fun x =>
    (List.range map_height).map (fun y =>
      if stairs = some ((x : Int), (y : Int)) then 2
      else if d.isFloorCell x y then 1 else 0))

/-- The observable output of `generate_paper_dungeon`: the surviving graph,
    the rasterized tile grid, the player position, the downstairs location
    and the spawned entities. -/
structure GenResult where
  rooms : List Room
  corridors : List Point
  tiles : List (List Nat)
  playerPos : Int × Int
  downstairs : Option (Int × Int)
  entities : List PlacedEntity
deriving DecidableEq

/-- Fallback Room value for an (unreachable in tuned runs) empty room list. -/
def emptyRoom : Room :=
  { room := RectangularRoom.make 0 0 0 0, ready_walls := [], is_room := true }

/-- A Room node that has exhausted all four walls. -/
def noWallsRoom : Room :=
  { room := RectangularRoom.make 10 10 4 4, ready_walls := [], is_room := true }

/-- A dungeon whose single room has exhausted all four walls. -/
def dNoWalls : Dungeon :=
  { data := [], rooms := [noWallsRoom], corridors := [], padding := 4,
    borders := RectangularRoom.make 4 4 22 22 }

/-- Python `generate_paper_dungeon`: seed room, growth loop of
    `complexity * 8` corridor attempts each possibly followed by a room
    placement, rasterization, player placement, per-room entity
    population (monsters disabled in the start room), and the stairs-room
    selection loop (fuelled, see `pickExit`). -/
def generate_paper_dungeon (room_min_size room_max_size map_width map_height : Nat)
    (max_monsters_per_room : Nat) (monster_chances : List (Nat × List (Nat × Nat)))
    (max_items_per_room : Nat) (item_chances : List (Nat × List (Nat × Nat)))
    (current_floor : Nat)
    (complexity min_corridor_length max_corridor_length seed_room_size : Nat)
    (stairsFuel : Nat) (stream : Nat → Nat) : GenResult :=
  let g0 : Rng := ⟨stream, 0⟩
  let d0 := Dungeon.make map_width map_height 4
  let d1 := d0.add_room (RectangularRoom.make
    (Int.tdiv ((map_width : Int) - seed_room_size) 2)
    (Int.tdiv ((map_height : Int) - seed_room_size) 2)
    seed_room_size seed_room_size)
  let growth := (List.range (complexity * 8)).foldl
    (fun st _ =>
      let r1 := randrangeN st.2 st.1.rooms.length
      let r2 := randrangeAB r1.2 min_corridor_length max_corridor_length
      let r3 := r2.2.next
      let dc := st.1.add_random_corridor r1.1 r3.1 r2.1 false
      match dc.2 with
      | none => (dc.1, r3.2)
      | some pt =>
        let rwd := randrangeAB r3.2 room_min_size room_max_size
        let rht := randrangeAB rwd.2 room_min_size room_max_size
        (dc.1.add_room (RectangularRoom.make (pt.x - 1) (pt.y - 1) rwd.1 rht.1), rht.2))
    (d1, g0)
  let dz := growth.1
  let rs := randrangeN growth.2 dz.rooms.length
  let si := rs.1
  let start_room := (dz.rooms[si]?).getD emptyRoom
  let playerPos := start_room.room.center
  let pop := dz.rooms.foldl
    (fun st rm =>
      let maxM := if st.2.2 = si then 0 else max_monsters_per_room
      let pe := place_entities rm.room st.1 maxM monster_chances
        max_items_per_room item_chances current_floor st.2.1
      (pe.1, pe.2, st.2.2 + 1))
    ([⟨0, playerPos.1, playerPos.2⟩], rs.2, 0)
  let ex := pickExit dz.rooms.length si stairsFuel pop.2.1
  let downstairs := (ex.1.bind (fun i => dz.rooms[i]?)).map (fun rm => rm.room.center)
  { rooms := dz.rooms
    corridors := dz.corridors
    tiles := renderTiles map_width map_height dz downstairs
    playerPos := playerPos
    downstairs := downstairs
    entities := pop.1 }

/-! Helper lemmas about the association-list spatial index. -/

theorem mapGet_mapSet_self (m : List (Key × Occupant)) (k : Key) (v : Occupant) :
    mapGet (mapSet m k v) k = some v := by
  induction m with
  | nil => simp [mapSet, mapGet]
  | cons p rest ih =>
    by_cases h : p.1 = k
    · simpa [mapSet, List.filter_cons, h] using ih
    · simpa [mapSet, mapGet, List.filter_cons, h] using ih

theorem mapGet_mapSet_ne (m : List (Key × Occupant)) (k k' : Key) (v : Occupant)
    (h : k' ≠ k) : mapGet (mapSet m k v) k' = mapGet m k' := by
  have hk : ¬(k = k') := fun hh => h hh.symm
  induction m with
  | nil => simp [mapSet, mapGet, hk]
  | cons p rest ih =>
    by_cases hp : p.1 = k
    · have hpk : ¬(p.1 = k') := by rw [hp]; exact hk
      have hset : mapSet (p :: rest) k v = mapSet rest k v := by
        simp [mapSet, List.filter_cons, hp]
      rw [hset, ih]
      simp [mapGet, hpk]
    · have hset : mapSet (p :: rest) k v = p :: mapSet rest k v := by
        simp [mapSet, List.filter_cons, hp]
      rw [hset]
      by_cases hq : p.1 = k'
      · simp [mapGet, hq]
      · simp [mapGet, hq, ih]

theorem set_data_rooms (d : Dungeon) (x y : Int) (v : Occupant) :
    (d.set_data x y v).rooms = d.rooms := by
  unfold Dungeon.set_data; split <;> rfl

theorem set_data_corridors (d : Dungeon) (x y : Int) (v : Occupant) :
    (d.set_data x y v).corridors = d.corridors := by
  unfold Dungeon.set_data; split <;> rfl

theorem set_data_borders (d : Dungeon) (x y : Int) (v : Occupant) :
    (d.set_data x y v).borders = d.borders := by
  unfold Dungeon.set_data; split <;> rfl

theorem set_data_padding (d : Dungeon) (x y : Int) (v : Occupant) :
    (d.set_data x y v).padding = d.padding := by
  unfold Dungeon.set_data; split <;> rfl

theorem get_data_set_data_ne (d : Dungeon) (x y x' y' : Int) (v : Occupant)
    (h : ¬(x' = x ∧ y' = y)) :
    (d.set_data x y v).get_data x' y' = d.get_data x' y' := by
  unfold Dungeon.set_data Dungeon.get_data
  split
  · exact mapGet_mapSet_ne _ _ _ _ (by simp [Prod.ext_iff]; intro hx hy; exact h ⟨hx, hy⟩)
  · rfl

theorem get_data_set_data_self (d : Dungeon) (x y : Int) (v : Occupant)
    (h : d.borders.has_point x y = true) :
    (d.set_data x y v).get_data x y = some v := by
  unfold Dungeon.set_data Dungeon.get_data
  rw [if_pos h]
  exact mapGet_mapSet_self _ _ _

/-! Helper lemmas about the corridor commit loop. -/

theorem commitCell_rooms (acc : Dungeon) (p : Point) :
    (commitCell acc p).rooms = acc.rooms := by
  simp [commitCell, set_data_rooms]

theorem commitCell_borders (acc : Dungeon) (p : Point) :
    (commitCell acc p).borders = acc.borders := by
  simp [commitCell, set_data_borders]

theorem commitCell_padding (acc : Dungeon) (p : Point) :
    (commitCell acc p).padding = acc.padding := by
  simp [commitCell, set_data_padding]

theorem commitCell_corridors (acc : Dungeon) (p : Point) :
    (commitCell acc p).corridors = acc.corridors ++ [p] := by
  simp [commitCell, set_data_corridors]

theorem commitCell_get_data (acc : Dungeon) (p : Point) (x y : Int) :
    (commitCell acc p).get_data x y
      = (acc.set_data p.x p.y (Occupant.corridorOcc p.x p.y)).get_data x y := rfl

theorem foldl_commitCell_rooms (todo : List Point) :
    ∀ acc : Dungeon, (todo.foldl commitCell acc).rooms = acc.rooms := by
  induction todo with
  | nil => intro acc; rfl
  | cons p rest ih => intro acc; rw [List.foldl_cons, ih, commitCell_rooms]

theorem foldl_commitCell_borders (todo : List Point) :
    ∀ acc : Dungeon, (todo.foldl commitCell acc).borders = acc.borders := by
  induction todo with
  | nil => intro acc; rfl
  | cons p rest ih => intro acc; rw [List.foldl_cons, ih, commitCell_borders]

theorem foldl_commitCell_padding (todo : List Point) :
    ∀ acc : Dungeon, (todo.foldl commitCell acc).padding = acc.padding := by
  induction todo with
  | nil => intro acc; rfl
  | cons p rest ih => intro acc; rw [List.foldl_cons, ih, commitCell_padding]

theorem foldl_commitCell_corridors (todo : List Point) :
    ∀ acc : Dungeon, (todo.foldl commitCell acc).corridors = acc.corridors ++ todo := by
  induction todo with
  | nil => intro acc; simp
  | cons p rest ih =>
    intro acc
    rw [List.foldl_cons, ih, commitCell_corridors, List.append_assoc]
    rfl

theorem foldl_commitCell_get_data_ne (x y : Int) (todo : List Point) :
    ∀ acc : Dungeon, (∀ p ∈ todo, ¬(p.x = x ∧ p.y = y)) →
    (todo.foldl commitCell acc).get_data x y = acc.get_data x y := by
  induction todo with
  | nil => intro acc _; rfl
  | cons p rest ih =>
    intro acc h
    rw [List.foldl_cons, ih _ (fun q hq => h q (List.mem_cons_of_mem _ hq)),
      commitCell_get_data]
    refine get_data_set_data_ne _ _ _ _ _ _ ?_
    intro hc
    exact h p (List.mem_cons_self _ _) ⟨hc.1.symm, hc.2.symm⟩

theorem foldl_commitCell_get_data_mem (b : RectangularRoom) (todo : List Point) :
    ∀ acc : Dungeon, acc.borders = b →
    (∀ p ∈ todo, b.has_point p.x p.y = true) →
    ∀ p0 ∈ todo, (todo.foldl commitCell acc).get_data p0.x p0.y
      = some (Occupant.corridorOcc p0.x p0.y) := by
  induction todo with
  | nil => intro acc _ _ p0 h0; cases h0
  | cons p rest ih =>
    intro acc hb hhp p0 h0
    rw [List.foldl_cons]
    by_cases hr : p0 ∈ rest
    · exact ih (commitCell acc p) (by rw [commitCell_borders, hb])
        (fun q hq => hhp q (List.mem_cons_of_mem _ hq)) p0 hr
    · have hp0 : p0 = p := by
        rcases List.mem_cons.mp h0 with h | h
        · exact h
        · exact absurd h hr
      subst hp0
      rw [foldl_commitCell_get_data_ne _ _ rest _ ?hne]
      · rw [commitCell_get_data]
        exact get_data_set_data_self _ _ _ _
          (by rw [hb]; exact hhp p0 (List.mem_cons_self _ _))
      case hne =>
        intro q hq hcon
        apply hr
        have : q = p0 := by
          cases q; cases p0
          simp only [Point.mk.injEq]
          exact ⟨hcon.1, hcon.2⟩
        rw [← this]
        exact hq

/-! Helper lemmas about the corridor walk loop. -/

theorem corridorWalk_update_rooms (d : Dungeon) (rs : List Room) (direction : Point) :
    ∀ (n : Nat) (pos : Point) (todo : List Point),
    corridorWalk { d with rooms := rs } direction n pos todo
      = corridorWalk d direction n pos todo := by
  intro n
  induction n with
  | zero => intro pos todo; rfl
  | succ m ih =>
    intro pos todo
    unfold corridorWalk
    simp only [show ({ d with rooms := rs } : Dungeon).in_limits = d.in_limits from rfl,
      show ({ d with rooms := rs } : Dungeon).get_data = d.get_data from rfl,
      show ({ d with rooms := rs } : Dungeon).padding = d.padding from rfl, ih]

theorem corridorWalk_todo_unoccupied (d : Dungeon) (direction : Point) :
    ∀ (n : Nat) (pos : Point) (todo acc : List Point) (fin : Point) (b : Bool),
    corridorWalk d direction n pos todo = some (acc, fin, b) →
    ∀ p ∈ acc, p ∈ todo ∨ d.get_data p.x p.y = none := by
  intro n
  induction n with
  | zero =>
    intro pos todo acc fin b h p hp
    unfold corridorWalk at h
    cases h
    exact Or.inl hp
  | succ m ih =>
    intro pos todo acc fin b h p hp
    unfold corridorWalk at h
    split at h
    · rcases hg : d.get_data (pos + direction).x (pos + direction).y with _ | v
      · rw [hg] at h
        rcases ih (pos + direction) (todo ++ [pos + direction]) acc fin b h p hp with
          hmem | hnone
        · rcases List.mem_append.mp hmem with ht | hs
          · exact Or.inl ht
          · rcases List.mem_singleton.mp hs with rfl
            exact Or.inr hg
        · exact Or.inr hnone
      · rw [hg] at h
        cases h
        exact Or.inl hp
    · cases h

theorem corridorWalk_todo_in_grown_limits (d : Dungeon) (direction : Point) :
    ∀ (n : Nat) (pos : Point) (todo acc : List Point) (fin : Point) (b : Bool),
    corridorWalk d direction n pos todo = some (acc, fin, b) →
    ∀ p ∈ acc, p ∈ todo ∨
      d.in_limits ((RectangularRoom.make p.x p.y 1 1).grow d.padding) = true := by
  intro n
  induction n with
  | zero =>
    intro pos todo acc fin b h p hp
    unfold corridorWalk at h
    cases h
    exact Or.inl hp
  | succ m ih =>
    intro pos todo acc fin b h p hp
    unfold corridorWalk at h
    split at h
    · rename_i hl
      rcases hg : d.get_data (pos + direction).x (pos + direction).y with _ | v
      · rw [hg] at h
        rcases ih (pos + direction) (todo ++ [pos + direction]) acc fin b h p hp with
          hmem | hlim
        · rcases List.mem_append.mp hmem with ht | hs
          · exact Or.inl ht
          · rcases List.mem_singleton.mp hs with rfl
            exact Or.inr hl
        · exact Or.inr hlim
      · rw [hg] at h
        cases h
        exact Or.inl hp
    · cases h

theorem corridorWalk_touched_get_data (d : Dungeon) (direction : Point) :
    ∀ (n : Nat) (pos : Point) (todo acc : List Point) (fin : Point),
    corridorWalk d direction n pos todo = some (acc, fin, true) →
    ∃ v, d.get_data fin.x fin.y = some v := by
  intro n
  induction n with
  | zero =>
    intro pos todo acc fin h
    unfold corridorWalk at h
    simp at h
  | succ m ih =>
    intro pos todo acc fin h
    unfold corridorWalk at h
    split at h
    · rcases hg : d.get_data (pos + direction).x (pos + direction).y with _ | v
      · rw [hg] at h
        exact ih (pos + direction) (todo ++ [pos + direction]) acc fin h
      · rw [hg] at h
        cases h
        exact ⟨v, hg⟩
    · cases h

/-! Geometry helper lemmas. -/

theorem has_point_of_in_limits_grow (b : RectangularRoom) (pad : Int) (hpad : 0 ≤ pad)
    (p : Point) (h : b.encloses ((RectangularRoom.make p.x p.y 1 1).grow pad) = true) :
    b.has_point p.x p.y = true := by
  unfold RectangularRoom.encloses RectangularRoom.grow RectangularRoom.make
    RectangularRoom.size at h
  unfold RectangularRoom.has_point
  simp only [Bool.and_eq_true, decide_eq_true_eq] at h ⊢
  omega

theorem has_point_of_encloses (b r : RectangularRoom) (h : b.encloses r = true)
    (x y : Int) (h1 : r.x1 ≤ x) (h2 : x ≤ r.x2) (h3 : r.y1 ≤ y) (h4 : y ≤ r.y2) :
    b.has_point x y = true := by
  unfold RectangularRoom.encloses at h
  unfold RectangularRoom.has_point
  simp only [Bool.and_eq_true, decide_eq_true_eq] at h ⊢
  omega

theorem mem_intRange (a b x : Int) : x ∈ intRange a b ↔ a ≤ x ∧ x < b := by
  unfold intRange
  rw [List.mem_map]
  constructor
  · rintro ⟨i, hi, rfl⟩
    rw [List.mem_range] at hi
    omega
  · intro h
    refine ⟨(x - a).toNat, ?_, ?_⟩
    · rw [List.mem_range]
      omega
    · omega

theorem mem_footprint (r : RectangularRoom) (x y : Int) :
    (x, y) ∈ footprint r ↔ r.x1 ≤ x ∧ x < r.x2 ∧ r.y1 ≤ y ∧ y < r.y2 := by
  unfold footprint
  simp only [List.mem_flatMap, List.mem_map, mem_intRange]
  constructor
  · rintro ⟨x', hx', y', hy', heq⟩
    cases heq
    exact ⟨hx'.1, hx'.2, hy'.1, hy'.2⟩
  · intro h
    exact ⟨x, ⟨h.1, h.2.1⟩, y, ⟨h.2.2.1, h.2.2.2⟩, rfl⟩

/-! Helper lemmas about the add-room marking loop. -/

theorem foldl_set_data_rooms (keys : List Key) (v : Occupant) :
    ∀ acc : Dungeon,
    (keys.foldl (fun a c => a.set_data c.1 c.2 v) acc).rooms = acc.rooms := by
  induction keys with
  | nil => intro acc; rfl
  | cons c rest ih => intro acc; rw [List.foldl_cons, ih, set_data_rooms]

theorem foldl_set_data_corridors (keys : List Key) (v : Occupant) :
    ∀ acc : Dungeon,
    (keys.foldl (fun a c => a.set_data c.1 c.2 v) acc).corridors = acc.corridors := by
  induction keys with
  | nil => intro acc; rfl
  | cons c rest ih => intro acc; rw [List.foldl_cons, ih, set_data_corridors]

theorem foldl_set_data_borders (keys : List Key) (v : Occupant) :
    ∀ acc : Dungeon,
    (keys.foldl (fun a c => a.set_data c.1 c.2 v) acc).borders = acc.borders := by
  induction keys with
  | nil => intro acc; rfl
  | cons c rest ih => intro acc; rw [List.foldl_cons, ih, set_data_borders]

theorem foldl_set_data_padding (keys : List Key) (v : Occupant) :
    ∀ acc : Dungeon,
    (keys.foldl (fun a c => a.set_data c.1 c.2 v) acc).padding = acc.padding := by
  induction keys with
  | nil => intro acc; rfl
  | cons c rest ih => intro acc; rw [List.foldl_cons, ih, set_data_padding]

theorem foldl_set_data_get_ne (x y : Int) (keys : List Key) (v : Occupant) :
    ∀ acc : Dungeon, (x, y) ∉ keys →
    (keys.foldl (fun a c => a.set_data c.1 c.2 v) acc).get_data x y
      = acc.get_data x y := by
  induction keys with
  | nil => intro acc _; rfl
  | cons c rest ih =>
    intro acc h
    rw [List.foldl_cons, ih _ (fun hm => h (List.mem_cons_of_mem _ hm))]
    refine get_data_set_data_ne _ _ _ _ _ _ ?_
    rintro ⟨rfl, rfl⟩
    exact h (by simp)

theorem foldl_set_data_get_mem (b : RectangularRoom) (keys : List Key) (v : Occupant) :
    ∀ acc : Dungeon, acc.borders = b →
    (∀ c ∈ keys, b.has_point c.1 c.2 = true) →
    ∀ c0 ∈ keys, (keys.foldl (fun a c => a.set_data c.1 c.2 v) acc).get_data c0.1 c0.2
      = some v := by
  induction keys with
  | nil => intro acc _ _ c0 h0; cases h0
  | cons c rest ih =>
    intro acc hb hhp c0 h0
    rw [List.foldl_cons]
    by_cases hr : c0 ∈ rest
    · exact ih (acc.set_data c.1 c.2 v) (by rw [set_data_borders, hb])
        (fun q hq => hhp q (List.mem_cons_of_mem _ hq)) c0 hr
    · have hc0 : c0 = c := by
        rcases List.mem_cons.mp h0 with h | h
        · exact h
        · exact absurd h hr
      subst hc0
      rw [foldl_set_data_get_ne _ _ rest _ _ ?hne]
      · exact get_data_set_data_self _ _ _ _
          (by rw [hb]; exact hhp c0 (List.mem_cons_self _ _))
      case hne =>
        intro hm
        apply hr
        have : (c0.1, c0.2) = c0 := rfl
        rw [this] at hm
        exact hm

/-! Helper lemmas about add_room. -/

theorem add_room_of_not_in_limits (d : Dungeon) (r : RectangularRoom)
    (h : d.in_limits r = false) : d.add_room r = d := by
  unfold Dungeon.add_room
  simp [h]

theorem add_room_rooms (d : Dungeon) (r : RectangularRoom) (h : d.in_limits r = true) :
    (d.add_room r).rooms
      = d.rooms ++ [{ room := r, ready_walls := initWalls, is_room := true }] := by
  unfold Dungeon.add_room
  rw [if_pos h, foldl_set_data_rooms]

theorem add_room_corridors (d : Dungeon) (r : RectangularRoom)
    (h : d.in_limits r = true) : (d.add_room r).corridors = d.corridors := by
  unfold Dungeon.add_room
  rw [if_pos h, foldl_set_data_corridors]

theorem add_room_borders (d : Dungeon) (r : RectangularRoom) :
    (d.add_room r).borders = d.borders := by
  unfold Dungeon.add_room
  split
  · rw [foldl_set_data_borders]
  · rfl

theorem add_room_padding (d : Dungeon) (r : RectangularRoom) :
    (d.add_room r).padding = d.padding := by
  unfold Dungeon.add_room
  split
  · rw [foldl_set_data_padding]
  · rfl

theorem add_room_get_data (d : Dungeon) (r : RectangularRoom)
    (h : d.in_limits r = true) (x y : Int)
    (h1 : r.x1 ≤ x) (h2 : x < r.x2) (h3 : r.y1 ≤ y) (h4 : y < r.y2) :
    (d.add_room r).get_data x y = some (Occupant.roomOcc d.rooms.length) := by
  unfold Dungeon.add_room
  rw [if_pos h]
  have hm : ((x, y) : Key) ∈ footprint r := (mem_footprint r x y).mpr ⟨h1, h2, h3, h4⟩
  have := foldl_set_data_get_mem d.borders (footprint r) (Occupant.roomOcc d.rooms.length)
    { d with rooms :=
        d.rooms ++ [{ room := r, ready_walls := initWalls, is_room := true }] }
    rfl
    (fun c hc => by
      rcases (mem_footprint r c.1 c.2).mp (by simpa using hc) with ⟨a1, a2, a3, a4⟩
      exact has_point_of_encloses d.borders r h c.1 c.2 a1 (by omega) a3 (by omega))
    (x, y) hm
  simpa using this

theorem mem_add_room_rooms (d : Dungeon) (r : RectangularRoom) (rm : Room)
    (h : rm ∈ (d.add_room r).rooms) :
    rm ∈ d.rooms ∨ rm = { room := r, ready_walls := initWalls, is_room := true } := by
  unfold Dungeon.add_room at h
  by_cases hl : d.in_limits r = true
  · rw [if_pos hl, foldl_set_data_rooms] at h
    rcases List.mem_append.mp h with h | h
    · exact Or.inl h
    · exact Or.inr (List.mem_singleton.mp h)
  · rw [if_neg hl] at h
    exact Or.inl h

/-! Helper lemmas about add_random_corridor. -/

theorem add_random_corridor_no_room (d : Dungeon) (ri choice len : Nat) (conn : Bool)
    (hr : d.rooms[ri]? = none) : d.add_random_corridor ri choice len conn = (d, none) := by
  unfold Dungeon.add_random_corridor
  rw [hr]

theorem add_random_corridor_no_walls (d : Dungeon) (ri choice len : Nat) (conn : Bool)
    (room : Room) (hr : d.rooms[ri]? = some room)
    (hw : room.ready_walls.length = 0) :
    d.add_random_corridor ri choice len conn = (d, none) := by
  unfold Dungeon.add_random_corridor
  rw [hr]
  simp [hw]

theorem add_random_corridor_eq (d : Dungeon) (ri choice len : Nat) (conn : Bool)
    (room : Room) (hr : d.rooms[ri]? = some room)
    (hw : ¬room.ready_walls.length = 0) :
    d.add_random_corridor ri choice len conn =
      match corridorWalk d (corridorStart room.room (wallChosen room choice)).2 len
          (corridorStart room.room (wallChosen room choice)).1 [] with
      | none => ({ d with rooms := d.rooms.set ri (roomAfterPop room choice) }, none)
      | some (todo, position, touched) =>
        if touched || !conn then
          if !touched then
            (todo.foldl commitCell
              { d with rooms := d.rooms.set ri (roomAfterPop room choice) },
              some position)
          else
            (todo.foldl commitCell
              { d with rooms := d.rooms.set ri (roomAfterPop room choice) },
              none)
        else ({ d with rooms := d.rooms.set ri (roomAfterPop room choice) },
            some position) := by
  unfold Dungeon.add_random_corridor
  rw [hr]
  dsimp only
  rw [if_neg hw, corridorWalk_update_rooms]

theorem add_random_corridor_borders (d : Dungeon) (ri choice len : Nat) (conn : Bool) :
    ((d.add_random_corridor ri choice len conn).1).borders = d.borders := by
  rcases hr : d.rooms[ri]? with _ | room
  · rw [add_random_corridor_no_room d ri choice len conn hr]
  · by_cases hw : room.ready_walls.length = 0
    · rw [add_random_corridor_no_walls d ri choice len conn room hr hw]
    · rw [add_random_corridor_eq d ri choice len conn room hr hw]
      split
      · rfl
      · split
        · split
          · rw [foldl_commitCell_borders]
          · rw [foldl_commitCell_borders]
        · rfl

theorem add_random_corridor_rooms (d : Dungeon) (ri choice len : Nat) (conn : Bool)
    (room : Room) (hr : d.rooms[ri]? = some room)
    (hw : ¬room.ready_walls.length = 0) :
    ((d.add_random_corridor ri choice len conn).1).rooms
      = d.rooms.set ri (roomAfterPop room choice) := by
  rw [add_random_corridor_eq d ri choice len conn room hr hw]
  split
  · rfl
  · split
    · split
      · rw [foldl_commitCell_rooms]
      · rw [foldl_commitCell_rooms]
    · rfl

theorem add_random_corridor_rooms_cases (d : Dungeon) (ri choice len : Nat)
    (conn : Bool) :
    ((d.add_random_corridor ri choice len conn).1).rooms = d.rooms ∨
    ∃ room, d.rooms[ri]? = some room ∧
      ((d.add_random_corridor ri choice len conn).1).rooms
        = d.rooms.set ri (roomAfterPop room choice) := by
  rcases hr : d.rooms[ri]? with _ | room
  · rw [add_random_corridor_no_room d ri choice len conn hr]
    exact Or.inl rfl
  · by_cases hw : room.ready_walls.length = 0
    · rw [add_random_corridor_no_walls d ri choice len conn room hr hw]
      exact Or.inl rfl
    · exact Or.inr ⟨room, rfl, add_random_corridor_rooms d ri choice len conn room hr hw⟩

theorem wallChosen_mem (room : Room) (choice : Nat)
    (hw : ¬room.ready_walls.length = 0) :
    wallChosen room choice ∈ room.ready_walls := by
  unfold wallChosen
  have h : choice % room.ready_walls.length < room.ready_walls.length :=
    Nat.mod_lt _ (Nat.pos_of_ne_zero hw)
  rw [List.getD_eq_getElem?_getD, List.getElem?_eq_getElem h]
  exact List.getElem_mem h

theorem roomAfterPop_length (room : Room) (choice : Nat)
    (hw : ¬room.ready_walls.length = 0) :
    (roomAfterPop room choice).ready_walls.length + 1 = room.ready_walls.length := by
  unfold roomAfterPop
  have h : choice % room.ready_walls.length < room.ready_walls.length :=
    Nat.mod_lt _ (Nat.pos_of_ne_zero hw)
  simp [List.length_eraseIdx_of_lt h]
  omega

/-! Lifetime invariants over arbitrary call sequences. -/

theorem applyStep_borders (d : Dungeon) (s : Step) :
    (applyStep d s).borders = d.borders := by
  cases s with
  | addRoom r => exact add_room_borders d r
  | addCorridor ri choice len conn => exact add_random_corridor_borders d ri choice len conn

theorem applyStep_rooms_enclosed (d : Dungeon) (s : Step)
    (h : ∀ rm ∈ d.rooms, d.borders.encloses rm.room = true) :
    ∀ rm ∈ (applyStep d s).rooms, d.borders.encloses rm.room = true := by
  cases s with
  | addRoom r =>
    intro rm hm
    simp only [applyStep] at hm
    rcases mem_add_room_rooms d r rm hm with hm' | hm'
    · exact h rm hm'
    · subst hm'
      by_cases hl : d.in_limits r = true
      · exact hl
      · rw [add_room_of_not_in_limits d r (by simpa using hl)] at hm
        exact h _ hm
  | addCorridor ri choice len conn =>
    intro rm hm
    rcases add_random_corridor_rooms_cases d ri choice len conn with hc | ⟨room, hr, hc⟩
    · rw [applyStep] at hm
      rw [hc] at hm
      exact h rm hm
    · rw [applyStep] at hm
      rw [hc] at hm
      rcases List.mem_or_eq_of_mem_set hm with hm' | hm'
      · exact h rm hm'
      · subst hm'
        exact h room (List.getElem?_mem hr)

theorem applyStep_walls_le (d : Dungeon) (s : Step)
    (h : ∀ rm ∈ d.rooms, rm.ready_walls.length ≤ 4) :
    ∀ rm ∈ (applyStep d s).rooms, rm.ready_walls.length ≤ 4 := by
  cases s with
  | addRoom r =>
    intro rm hm
    rcases mem_add_room_rooms d r rm hm with hm' | hm'
    · exact h rm hm'
    · subst hm'
      simp [initWalls]
  | addCorridor ri choice len conn =>
    intro rm hm
    rcases add_random_corridor_rooms_cases d ri choice len conn with hc | ⟨room, hr, hc⟩
    · rw [applyStep] at hm
      rw [hc] at hm
      exact h rm hm
    · rw [applyStep] at hm
      rw [hc] at hm
      rcases List.mem_or_eq_of_mem_set hm with hm' | hm'
      · exact h rm hm'
      · subst hm'
        calc (roomAfterPop room choice).ready_walls.length
            ≤ room.ready_walls.length := List.length_eraseIdx_le _ _
          _ ≤ 4 := h room (List.getElem?_mem hr)

theorem runSteps_borders (steps : List Step) :
    ∀ d : Dungeon, (runSteps d steps).borders = d.borders := by
  induction steps with
  | nil => intro d; rfl
  | cons s rest ih =>
    intro d
    show (runSteps (applyStep d s) rest).borders = d.borders
    rw [ih, applyStep_borders]

theorem runSteps_rooms_enclosed (steps : List Step) :
    ∀ d : Dungeon, (∀ rm ∈ d.rooms, d.borders.encloses rm.room = true) →
    ∀ rm ∈ (runSteps d steps).rooms, d.borders.encloses rm.room = true := by
  induction steps with
  | nil => intro d h; exact h
  | cons s rest ih =>
    intro d h rm hm
    have h1 := applyStep_rooms_enclosed d s h
    have h2 : ∀ rm ∈ (applyStep d s).rooms,
        (applyStep d s).borders.encloses rm.room = true := by
      rw [applyStep_borders]
      exact h1
    have := ih (applyStep d s) h2 rm hm
    rwa [applyStep_borders] at this

theorem runSteps_walls_le (steps : List Step) :
    ∀ d : Dungeon, (∀ rm ∈ d.rooms, rm.ready_walls.length ≤ 4) →
    ∀ rm ∈ (runSteps d steps).rooms, rm.ready_walls.length ≤ 4 := by
  induction steps with
  | nil => intro d h; exact h
  | cons s rest ih =>
    intro d h rm hm
    exact ih (applyStep d s) (applyStep_walls_le d s h) rm hm

/-! Helper lemma about the fuelled stairs-selection loop. -/

theorem pickExit_one_none : ∀ (fuel : Nat) (g : Rng), (pickExit 1 0 fuel g).1 = none := by
  intro fuel
  induction fuel with
  | zero => intro g; rfl
  | succ m ih =>
    intro g
    unfold pickExit
    have h : (randrangeN g 1).1 = 0 := Nat.mod_one _
    rw [h]
    simp [ih]

/-! Claim theorems. -/

/-- C9: RectangularRoom.grow returns a rectangle with the same center and
    with width and height each increased by exactly 2 * margin, and growing
    by 0 returns a rectangle with bounds equal to the input. -/
theorem grow_center_size_spec (r : RectangularRoom) (m : Int) :
    (r.grow m).center = r.center ∧
    (r.grow m).size.x = r.size.x + 2 * m ∧
    (r.grow m).size.y = r.size.y + 2 * m ∧
    r.grow 0 = r := by
  refine ⟨?_, ?_, ?_, ?_⟩
  · have hx : (r.grow m).x1 + (r.grow m).x2 = r.x1 + r.x2 := by
      simp [RectangularRoom.grow, RectangularRoom.make, RectangularRoom.size]
      ring
    have hy : (r.grow m).y1 + (r.grow m).y2 = r.y1 + r.y2 := by
      simp [RectangularRoom.grow, RectangularRoom.make, RectangularRoom.size]
      ring
    unfold RectangularRoom.center
    rw [hx, hy]
  · simp [RectangularRoom.grow, RectangularRoom.make, RectangularRoom.size]
    ring
  · simp [RectangularRoom.grow, RectangularRoom.make, RectangularRoom.size]
    ring
  · cases r with
    | mk a b c d =>
      simp [RectangularRoom.grow, RectangularRoom.make, RectangularRoom.size,
        RectangularRoom.mk.injEq]

/-- C1 (amended): whenever a wall is chosen, connecting is true, and the walk
    completes all length steps with no step position occupied and no
    out-of-bounds abort, nothing is committed — the spatial index and the
    corridors list are unchanged — but, unlike the claim, the call DOES
    return the final walk position (the trailing return of the function). -/
theorem corridor_clean_connecting_spec (d : Dungeon) (ri choice len : Nat)
    (room : Room) (todo : List Point) (pos : Point)
    (hr : d.rooms[ri]? = some room) (hw : ¬room.ready_walls.length = 0)
    (hwalk : corridorWalk d (corridorStart room.room (wallChosen room choice)).2 len
      (corridorStart room.room (wallChosen room choice)).1 [] = some (todo, pos, false)) :
    (d.add_random_corridor ri choice len true).1.data = d.data ∧
    (d.add_random_corridor ri choice len true).1.corridors = d.corridors ∧
    (d.add_random_corridor ri choice len true).2 = some pos := by
  rw [add_random_corridor_eq d ri choice len true room hr hw, hwalk]
  exact ⟨rfl, rfl, rfl⟩

/-- C1 counterexample: on the scenario-A seed room, a clean 5-step walk from
    the north wall with connecting = true commits nothing, yet the call
    returns the final position (80, 41) rather than nothing. -/
theorem corridor_clean_connecting_counterexample :
    (sceneA.add_random_corridor 0 0 5 true).2 = some ⟨80, 41⟩ ∧
    (sceneA.add_random_corridor 0 0 5 true).1.data = sceneA.data ∧
    (sceneA.add_random_corridor 0 0 5 true).1.corridors = sceneA.corridors := by
  refine ⟨by decide, by decide, by decide⟩

/-- C1 witness: the amended theorem applied to a clean eastward 4-step walk
    from the scenario-A seed room. -/
theorem corridor_clean_connecting_spec_witness :
    (sceneA.add_random_corridor 0 1 4 true).1.data = sceneA.data ∧
    (sceneA.add_random_corridor 0 1 4 true).1.corridors = sceneA.corridors ∧
    (sceneA.add_random_corridor 0 1 4 true).2 = some ⟨87, 50⟩ :=
  corridor_clean_connecting_spec sceneA 0 1 4 sceneARoom
    [⟨84, 50⟩, ⟨85, 50⟩, ⟨86, 50⟩, ⟨87, 50⟩] ⟨87, 50⟩ (by decide) (by decide) (by decide)

/-- C2 (amended): the corridor commit phase never rewrites an existing
    spatial-index binding — every binding present before an
    add_random_corridor call survives it unchanged.  (add_room, by contrast,
    performs no occupancy check and can overwrite, see the counterexample.) -/
theorem corridor_no_overwrite_spec (d : Dungeon) (ri choice len : Nat) (conn : Bool)
    (x y : Int) (v : Occupant) (hv : d.get_data x y = some v) :
    (d.add_random_corridor ri choice len conn).1.get_data x y = some v := by
  rcases hr : d.rooms[ri]? with _ | room
  · rw [add_random_corridor_no_room d ri choice len conn hr]
    exact hv
  · by_cases hw : room.ready_walls.length = 0
    · rw [add_random_corridor_no_walls d ri choice len conn room hr hw]
      exact hv
    · rw [add_random_corridor_eq d ri choice len conn room hr hw]
      split
      · exact hv
      · rename_i todo pos touched heq
        have hkeys : ∀ p ∈ todo, ¬(p.x = x ∧ p.y = y) := by
          intro p hp hcon
          rcases corridorWalk_todo_unoccupied d _ len _ [] todo pos touched heq p hp with
            h0 | h0
          · cases h0
          · rw [hcon.1, hcon.2, hv] at h0
            cases h0
        split
        · split
          · rw [foldl_commitCell_get_data_ne x y todo _ hkeys]
            exact hv
          · rw [foldl_commitCell_get_data_ne x y todo _ hkeys]
            exact hv
        · exact hv

/-- C2 counterexample: two fully overlapping add_room calls (add_room checks
    only the borders, never occupancy) store two different occupants at the
    same key (5, 5) — the second write rebinds an already-mapped key. -/
theorem spatial_overwrite_counterexample :
    dOverlapA.get_data 5 5 = some (Occupant.roomOcc 0) ∧
    dOverlapB = dOverlapA.add_room (RectangularRoom.make 5 5 3 3) ∧
    dOverlapA.in_limits (RectangularRoom.make 5 5 3 3) = true ∧
    dOverlapB.get_data 5 5 = some (Occupant.roomOcc 1) := by
  refine ⟨by decide, rfl, by decide, by decide⟩

/-- C2 witness: the amended theorem applied to the dungeon holding one room,
    whose (5, 5) binding survives a corridor-growth call. -/
theorem corridor_no_overwrite_spec_witness :
    (dOverlapA.add_random_corridor 0 0 6 false).1.get_data 5 5
      = some (Occupant.roomOcc 0) :=
  corridor_no_overwrite_spec dOverlapA 0 0 6 false 5 5 (Occupant.roomOcc 0) (by decide)

/-- C5: when a step of the walk leaves the padded borders the call aborts:
    nothing is returned, the spatial index and corridors list are exactly as
    before, and the only state change is the consumed wall; and concretely,
    a length-20 growth aimed at the border from the scenario-B room aborts,
    decrements the wall count from 4 to 3, and leaves corridors unchanged. -/
theorem corridor_abort_spec :
    (∀ (d : Dungeon) (ri choice len : Nat) (conn : Bool) (room : Room),
      d.rooms[ri]? = some room → ¬room.ready_walls.length = 0 →
      corridorWalk d (corridorStart room.room (wallChosen room choice)).2 len
          (corridorStart room.room (wallChosen room choice)).1 [] = none →
      (d.add_random_corridor ri choice len conn).1.data = d.data ∧
      (d.add_random_corridor ri choice len conn).1.corridors = d.corridors ∧
      (d.add_random_corridor ri choice len conn).2 = none ∧
      (d.add_random_corridor ri choice len conn).1.rooms
          = d.rooms.set ri (roomAfterPop room choice)) ∧
    ((sceneB.add_random_corridor 0 0 20 false).2 = none ∧
      (sceneB.add_random_corridor 0 0 20 false).1.corridors = sceneB.corridors ∧
      (sceneB.add_random_corridor 0 0 20 false).1.data = sceneB.data ∧
      (sceneB.add_random_corridor 0 0 20 false).1.rooms.map
          (fun rm => rm.ready_walls.length) = [3] ∧
      sceneB.rooms.map (fun rm => rm.ready_walls.length) = [4] ∧
      sceneB.corridors.length = 0) := by
  constructor
  · intro d ri choice len conn room hr hw hwalk
    rw [add_random_corridor_eq d ri choice len conn room hr hw, hwalk]
    exact ⟨rfl, rfl, rfl, rfl⟩
  · refine ⟨by decide, by decide, by decide, by decide, by decide, by decide⟩

/-- C5 witness: the abort branch applied to scenario B. -/
theorem corridor_abort_spec_witness :
    (sceneB.add_random_corridor 0 0 20 false).1.data = sceneB.data ∧
    (sceneB.add_random_corridor 0 0 20 false).1.corridors = sceneB.corridors ∧
    (sceneB.add_random_corridor 0 0 20 false).2 = none ∧
    (sceneB.add_random_corridor 0 0 20 false).1.rooms
        = sceneB.rooms.set 0 (roomAfterPop sceneBRoom 0) :=
  corridor_abort_spec.1 sceneB 0 0 20 false sceneBRoom (by decide) (by decide) (by decide)

/-- C6: when a step's next position is already occupied, growth stops there;
    every cell queued before the collision (never the colliding cell) is
    committed to both the spatial index and the corridors list, the
    colliding cell keeps its previous occupant, and the call returns
    nothing, for either value of connecting; and concretely, in scenario C
    the eastward corridor from the first room commits exactly the three gap
    cells and returns nothing. -/
theorem corridor_touch_spec :
    (∀ (d : Dungeon) (ri choice len : Nat) (conn : Bool) (room : Room)
      (todo : List Point) (pos : Point),
      0 ≤ d.padding →
      d.rooms[ri]? = some room → ¬room.ready_walls.length = 0 →
      corridorWalk d (corridorStart room.room (wallChosen room choice)).2 len
          (corridorStart room.room (wallChosen room choice)).1 []
        = some (todo, pos, true) →
      (d.add_random_corridor ri choice len conn).2 = none ∧
      (d.add_random_corridor ri choice len conn).1.corridors = d.corridors ++ todo ∧
      (∀ p ∈ todo, (d.add_random_corridor ri choice len conn).1.get_data p.x p.y
          = some (Occupant.corridorOcc p.x p.y)) ∧
      (d.add_random_corridor ri choice len conn).1.get_data pos.x pos.y
          = d.get_data pos.x pos.y) ∧
    ((sceneC.add_random_corridor 0 1 8 true).2 = none ∧
      (sceneC.add_random_corridor 0 1 8 true).1.corridors
          = [⟨14, 12⟩, ⟨15, 12⟩, ⟨16, 12⟩] ∧
      (sceneC.add_random_corridor 0 1 8 true).1.get_data 17 12
          = some (Occupant.roomOcc 1)) := by
  constructor
  · intro d ri choice len conn room todo pos hpad hr hw hwalk
    have hhp : ∀ q ∈ todo, d.borders.has_point q.x q.y = true := by
      intro q hq
      rcases corridorWalk_todo_in_grown_limits d _ len _ [] todo pos true hwalk q hq with
        h0 | h0
      · cases h0
      · exact has_point_of_in_limits_grow d.borders d.padding hpad q h0
    have hkeys : ∀ q ∈ todo, ¬(q.x = pos.x ∧ q.y = pos.y) := by
      intro q hq hcon
      rcases corridorWalk_todo_unoccupied d _ len _ [] todo pos true hwalk q hq with
        h0 | h0
      · cases h0
      · rcases corridorWalk_touched_get_data d _ len _ [] todo pos hwalk with ⟨v, hv⟩
        rw [hcon.1, hcon.2, hv] at h0
        cases h0
    rw [add_random_corridor_eq d ri choice len conn room hr hw, hwalk]
    refine ⟨rfl, ?_, ?_, ?_⟩
    · show (todo.foldl commitCell
          { d with rooms := d.rooms.set ri (roomAfterPop room choice) }).corridors
        = d.corridors ++ todo
      rw [foldl_commitCell_corridors]
    · intro p hp
      show (todo.foldl commitCell
          { d with rooms := d.rooms.set ri (roomAfterPop room choice) }).get_data p.x p.y
        = some (Occupant.corridorOcc p.x p.y)
      exact foldl_commitCell_get_data_mem d.borders todo
        { d with rooms := d.rooms.set ri (roomAfterPop room choice) } rfl hhp p hp
    · show (todo.foldl commitCell
          { d with rooms := d.rooms.set ri (roomAfterPop room choice) }).get_data
            pos.x pos.y
        = d.get_data pos.x pos.y
      rw [foldl_commitCell_get_data_ne pos.x pos.y todo _ hkeys]
      rfl
  · refine ⟨by decide, by decide, by decide⟩

/-- C6 witness: the junction branch applied to scenario C, with the
    committed-cell fact evaluated at the first gap cell (14, 12). -/
theorem corridor_touch_spec_witness :
    (sceneC.add_random_corridor 0 1 8 true).2 = none ∧
    (sceneC.add_random_corridor 0 1 8 true).1.corridors
        = sceneC.corridors ++ [⟨14, 12⟩, ⟨15, 12⟩, ⟨16, 12⟩] ∧
    (sceneC.add_random_corridor 0 1 8 true).1.get_data 14 12
        = some (Occupant.corridorOcc 14 12) ∧
    (sceneC.add_random_corridor 0 1 8 true).1.get_data 17 12 = sceneC.get_data 17 12 :=
  ⟨(corridor_touch_spec.1 sceneC 0 1 8 true sceneCRoomA
      [⟨14, 12⟩, ⟨15, 12⟩, ⟨16, 12⟩] ⟨17, 12⟩
      (by decide) (by decide) (by decide) (by decide)).1,
   (corridor_touch_spec.1 sceneC 0 1 8 true sceneCRoomA
      [⟨14, 12⟩, ⟨15, 12⟩, ⟨16, 12⟩] ⟨17, 12⟩
      (by decide) (by decide) (by decide) (by decide)).2.1,
   (corridor_touch_spec.1 sceneC 0 1 8 true sceneCRoomA
      [⟨14, 12⟩, ⟨15, 12⟩, ⟨16, 12⟩] ⟨17, 12⟩
      (by decide) (by decide) (by decide) (by decide)).2.2.1 ⟨14, 12⟩ (by decide),
   (corridor_touch_spec.1 sceneC 0 1 8 true sceneCRoomA
      [⟨14, 12⟩, ⟨15, 12⟩, ⟨16, 12⟩] ⟨17, 12⟩
      (by decide) (by decide) (by decide) (by decide)).2.2.2⟩

/-- C3: add_room is a pure no-op when the borders do not enclose the room;
    otherwise it appends exactly one Room node wrapping the rectangle and
    marks every half-open footprint cell as occupied by it; every Room ever
    present in a dungeon grown from a fresh state satisfies the borders
    enclosure check; and in scenario A the rooms list has length 1 and
    exactly 64 cells are occupied. -/
theorem add_room_spec :
    (∀ (d : Dungeon) (r : RectangularRoom), d.in_limits r = false → d.add_room r = d) ∧
    (∀ (d : Dungeon) (r : RectangularRoom), d.in_limits r = true →
      (d.add_room r).rooms
          = d.rooms ++ [{ room := r, ready_walls := initWalls, is_room := true }] ∧
      (d.add_room r).corridors = d.corridors ∧
      ∀ x y : Int, r.x1 ≤ x → x < r.x2 → r.y1 ≤ y → y < r.y2 →
        (d.add_room r).get_data x y = some (Occupant.roomOcc d.rooms.length)) ∧
    (∀ (W H p : Int) (steps : List Step) (rm : Room),
      rm ∈ (runSteps (Dungeon.make W H p) steps).rooms →
      (Dungeon.make W H p).borders.encloses rm.room = true) ∧
    (sceneA.rooms.length = 1 ∧ sceneA.data.length = 64) := by
  refine ⟨add_room_of_not_in_limits, ?_, ?_, by decide, by decide⟩
  · intro d r h
    exact ⟨add_room_rooms d r h, add_room_corridors d r h,
      fun x y h1 h2 h3 h4 => add_room_get_data d r h x y h1 h2 h3 h4⟩
  · intro W H p steps rm hm
    exact runSteps_rooms_enclosed steps (Dungeon.make W H p)
      (fun rm' h' => absurd h' (List.not_mem_nil _)) rm hm

/-- C3 witness: the no-op branch on a room outside the borders, the append
    and the footprint marking on the scenario-A seed room. -/
theorem add_room_spec_witness :
    (dOverlapA.add_room (RectangularRoom.make 0 0 40 40)) = dOverlapA ∧
    ((Dungeon.make 160 100 4).add_room (RectangularRoom.make 76 46 8 8)).rooms
        = [] ++ [sceneARoom] ∧
    ((Dungeon.make 160 100 4).add_room (RectangularRoom.make 76 46 8 8)).get_data 80 50
        = some (Occupant.roomOcc 0) :=
  ⟨add_room_spec.1 dOverlapA (RectangularRoom.make 0 0 40 40) (by decide),
   (add_room_spec.2.1 (Dungeon.make 160 100 4) (RectangularRoom.make 76 46 8 8)
      (by decide)).1,
   (add_room_spec.2.1 (Dungeon.make 160 100 4) (RectangularRoom.make 76 46 8 8)
      (by decide)).2.2 80 50 (by decide) (by decide) (by decide) (by decide)⟩

/-- C4: a fresh Room starts with exactly the four walls; a call on a room
    with no walls left is a total no-op returning nothing; a call on a room
    with walls consumes exactly the chosen wall (a member of the set)
    whatever the outcome, shrinking the set by exactly one; and over every
    call sequence from a fresh dungeon no wall set ever exceeds 4 elements. -/
theorem walls_spec :
    initWalls.length = 4 ∧
    (∀ (d : Dungeon) (r : RectangularRoom) (rm : Room),
      rm ∈ (d.add_room r).rooms → rm ∈ d.rooms ∨ rm.ready_walls = initWalls) ∧
    (∀ (d : Dungeon) (ri choice len : Nat) (conn : Bool) (room : Room),
      d.rooms[ri]? = some room → room.ready_walls.length = 0 →
      d.add_random_corridor ri choice len conn = (d, none)) ∧
    (∀ (d : Dungeon) (ri choice len : Nat) (conn : Bool) (room : Room),
      d.rooms[ri]? = some room → ¬room.ready_walls.length = 0 →
      (d.add_random_corridor ri choice len conn).1.rooms
          = d.rooms.set ri (roomAfterPop room choice) ∧
      wallChosen room choice ∈ room.ready_walls ∧
      (roomAfterPop room choice).ready_walls
          = room.ready_walls.eraseIdx (choice % room.ready_walls.length) ∧
      (roomAfterPop room choice).ready_walls.length + 1 = room.ready_walls.length) ∧
    (∀ (W H p : Int) (steps : List Step) (rm : Room),
      rm ∈ (runSteps (Dungeon.make W H p) steps).rooms → rm.ready_walls.length ≤ 4) := by
  refine ⟨rfl, ?_, ?_, ?_, ?_⟩
  · intro d r rm hm
    rcases mem_add_room_rooms d r rm hm with h | h
    · exact Or.inl h
    · subst h
      exact Or.inr rfl
  · intro d ri choice len conn room hr hw
    exact add_random_corridor_no_walls d ri choice len conn room hr hw
  · intro d ri choice len conn room hr hw
    exact ⟨add_random_corridor_rooms d ri choice len conn room hr hw,
      wallChosen_mem room choice hw, rfl, roomAfterPop_length room choice hw⟩
  · intro W H p steps rm hm
    exact runSteps_walls_le steps (Dungeon.make W H p)
      (fun rm' h' => absurd h' (List.not_mem_nil _)) rm hm

/-- C4 witness: the no-walls no-op on a room with an exhausted set, and the
    consume-one-wall facts on the scenario-A seed room. -/
theorem walls_spec_witness :
    dNoWalls.add_random_corridor 0 0 5 false = (dNoWalls, none) ∧
    (sceneA.add_random_corridor 0 0 5 false).1.rooms
        = sceneA.rooms.set 0 (roomAfterPop sceneARoom 0) ∧
    wallChosen sceneARoom 0 ∈ sceneARoom.ready_walls ∧
    (roomAfterPop sceneARoom 0).ready_walls.length + 1
        = sceneARoom.ready_walls.length :=
  ⟨walls_spec.2.2.1 dNoWalls 0 0 5 false noWallsRoom (by decide) (by decide),
   (walls_spec.2.2.2.1 sceneA 0 0 5 false sceneARoom (by decide) (by decide)).1,
   (walls_spec.2.2.2.1 sceneA 0 0 5 false sceneARoom (by decide) (by decide)).2.1,
   (walls_spec.2.2.2.1 sceneA 0 0 5 false sceneARoom (by decide) (by decide)).2.2.2⟩

/-- C10: for a room with x1 < x2, y1 < y2 and nonnegative corner (as holds
    for rooms enclosed by the padded borders), the truncating integer center
    lies in the half-open footprint; hence for a room of a dungeon with the
    borders of Dungeon.make W H p (p nonnegative) the center — the player
    start or the downstairs cell — is strictly inside the map and is a cell
    the rasterization step sets to floor. -/
theorem center_in_footprint_spec (W H p : Int) (d : Dungeon) (rm : Room)
    (hb : d.borders = (Dungeon.make W H p).borders)
    (hpad : 0 ≤ p)
    (hmem : rm ∈ d.rooms)
    (henc : d.borders.encloses rm.room = true)
    (hx : rm.room.x1 < rm.room.x2) (hy : rm.room.y1 < rm.room.y2)
    (hx0 : 0 ≤ rm.room.x1) (hy0 : 0 ≤ rm.room.y1) :
    rm.room.x1 ≤ rm.room.center.1 ∧ rm.room.center.1 < rm.room.x2 ∧
    rm.room.y1 ≤ rm.room.center.2 ∧ rm.room.center.2 < rm.room.y2 ∧
    0 ≤ rm.room.center.1 ∧ rm.room.center.1 < W ∧
    0 ≤ rm.room.center.2 ∧ rm.room.center.2 < H ∧
    d.isFloorCell rm.room.center.1 rm.room.center.2 = true := by
  have hcx : rm.room.center.1 = (rm.room.x1 + rm.room.x2) / 2 := by
    show Int.tdiv (rm.room.x1 + rm.room.x2) 2 = _
    exact Int.tdiv_eq_ediv (by omega) (by norm_num)
  have hcy : rm.room.center.2 = (rm.room.y1 + rm.room.y2) / 2 := by
    show Int.tdiv (rm.room.y1 + rm.room.y2) 2 = _
    exact Int.tdiv_eq_ediv (by omega) (by norm_num)
  rw [hb] at henc
  simp only [Dungeon.make, RectangularRoom.make, RectangularRoom.encloses,
    Bool.and_eq_true, decide_eq_true_eq] at henc
  have h1 : rm.room.x1 ≤ rm.room.center.1 := by rw [hcx]; omega
  have h2 : rm.room.center.1 < rm.room.x2 := by rw [hcx]; omega
  have h3 : rm.room.y1 ≤ rm.room.center.2 := by rw [hcy]; omega
  have h4 : rm.room.center.2 < rm.room.y2 := by rw [hcy]; omega
  refine ⟨h1, h2, h3, h4, by omega, by omega, by omega, by omega, ?_⟩
  unfold Dungeon.isFloorCell
  simp only [Bool.or_eq_true, List.any_eq_true, Bool.and_eq_true, decide_eq_true_eq]
  refine Or.inr ⟨rm, hmem, ?_⟩
  omega

/-- C10 witness: the center facts evaluated on the scenario-A seed room —
    the center (80, 50) lies inside (76, 46)-(84, 54), inside the 160 by 100
    map, and on a floor cell. -/
theorem center_in_footprint_spec_witness :
    sceneARoom.room.x1 ≤ sceneARoom.room.center.1 ∧
    sceneARoom.room.center.1 < sceneARoom.room.x2 ∧
    sceneARoom.room.y1 ≤ sceneARoom.room.center.2 ∧
    sceneARoom.room.center.2 < sceneARoom.room.y2 ∧
    0 ≤ sceneARoom.room.center.1 ∧ sceneARoom.room.center.1 < 160 ∧
    0 ≤ sceneARoom.room.center.2 ∧ sceneARoom.room.center.2 < 100 ∧
    sceneA.isFloorCell sceneARoom.room.center.1 sceneARoom.room.center.2 = true :=
  center_in_footprint_spec 160 100 4 sceneA sceneARoom (by decide) (by decide)
    (by decide) (by decide) (by decide) (by decide) (by decide) (by decide)

/-- C8: generate_paper_dungeon is deterministic in its random source — two
    runs with pointwise-equal random streams and identical parameters
    produce equal GenResults: the same tile grid, player position,
    downstairs location and entity placements. -/
theorem generate_deterministic (room_min room_max mw mh mm : Nat)
    (mc : List (Nat × List (Nat × Nat))) (mi : Nat)
    (ic : List (Nat × List (Nat × Nat))) (fl cx mn mx ss fuel : Nat)
    (s1 s2 : Nat → Nat) (hs : ∀ n, s1 n = s2 n) :
    generate_paper_dungeon room_min room_max mw mh mm mc mi ic fl cx mn mx ss fuel s1
      = generate_paper_dungeon room_min room_max mw mh mm mc mi ic fl cx mn mx ss
          fuel s2 := by
  rw [funext hs]

/-- C8 witness: the determinism theorem applied at concrete parameters and
    the constant-zero stream. -/
theorem generate_deterministic_witness :
    generate_paper_dungeon 6 10 80 50 2 [] 2 [] 1 1 4 12 8 5 (fun _ => 0)
      = generate_paper_dungeon 6 10 80 50 2 [] 2 [] 1 1 4 12 8 5 (fun _ => 0) :=
  generate_deterministic 6 10 80 50 2 [] 2 [] 1 1 4 12 8 5 (fun _ => 0) (fun _ => 0)
    (fun _ => rfl)

/-- C7: with complexity 0 only the seed room survives, and the stairs-room
    selection — which must differ from the start room — then fails for
    EVERY finite retry budget and (third conjunct) every random state: the
    code's unguarded while-True loop never breaks, so generate_paper_dungeon
    hangs instead of capping retries and failing the request as the claim
    asserts. -/
theorem generate_one_room_stairs_diverges :
    ∀ fuel : Nat,
      (generate_paper_dungeon 6 10 160 100 2 [] 2 [] 1 0 4 12 8 fuel
          (fun _ => 0)).rooms.length = 1 ∧
      (generate_paper_dungeon 6 10 160 100 2 [] 2 [] 1 0 4 12 8 fuel
          (fun _ => 0)).downstairs = none ∧
      (∀ g : Rng, (pickExit 1 0 fuel g).1 = none) := by
  intro fuel
  refine ⟨rfl, ?_, fun g => pickExit_one_none fuel g⟩
  show (Option.map _ ((pickExit 1 0 fuel _).1.bind _)) = none
  rw [pickExit_one_none]
  rfl

end YART
